import Mathlib

/-!
Verification of the financial-advisor multi-agent orchestration core.

A shallow embedding of the orchestration-and-fallback layer of the
financial-advisor repository:

* `invoke_agent` — the invocation adapter that tries several keyed
  parameter shapes before falling back to a bare call
  (`financial_advisor_multiagent.py`, `invoke_agent`);
* `websearch` — the search capability adapter
  (`financial_advisor_multiagent.py`, `websearch`);
* `run_complete_analysis` — the deterministic four-stage pipeline
  (`financial_advisor_multiagent.py`, `FinancialAdvisorOrchestrator`);
* `process_agentcore_payload`, `format_agentcore_response`, `invoke` —
  the request boundary adapter (`financial_advisor_agentcore.py`).

External capabilities (the generative model behind an agent handle and
the DuckDuckGo search backend) are opaque in the source; they are
embedded as explicit behaviour functions whose result type distinguishes
success, the shape-mismatch failure class (Python `TypeError`), and
every other failure.
-/

namespace FinAdvisor

/-! ## Invocation adapter (`invoke_agent`) -/

/-- Token management constant: conservative 2000-token cap per agent call
(`TOKEN_CAP = 2000` in the source). -/
def TOKEN_CAP : Nat := 2000

/-- The four keyed parameter-shape variants tried by `invoke_agent`, in
source order: `{"max_output_tokens": n}`, `{"max_tokens": n}`,
`{"generation_config": {"max_output_tokens": n}}`,
`{"inference_params": {"max_tokens": n}}`. -/
inductive Kwargs where
  | maxOutputTokens (n : Nat)
  | maxTokens (n : Nat)
  | generationConfig (n : Nat)
  | inferenceParams (n : Nat)
deriving DecidableEq, Repr

/-- Outcome of one call `agent(prompt, **kwargs)` (including the `str(...)`
conversion of its result): success with the response text, a
shape-mismatch failure (Python `TypeError`) carrying its description, or
any other failure carrying its description. -/
inductive CallResult where
  | ok (text : String)
  | typeErr (msg : String)
  | err (msg : String)
deriving DecidableEq, Repr

/-- True exactly on the shape-mismatch failure class. -/
def CallResult.isTypeErr : CallResult → Bool
  | .typeErr _ => true
  | _ => false

/-- An agent handle's behaviour: given the prompt and the optional kwargs
variant (`none` is the bare `agent(prompt)` call), produce an outcome. -/
def AgentBehaviour : Type := String → Option Kwargs → CallResult

/-- The ordered list of keyed kwargs variants from the `for kwargs in (...)`
tuple of `invoke_agent`. -/
def kwargsVariants (max_tokens : Nat) : List Kwargs :=
  [Kwargs.maxOutputTokens max_tokens,
   Kwargs.maxTokens max_tokens,
   Kwargs.generationConfig max_tokens,
   Kwargs.inferenceParams max_tokens]

/-- The last-ditch `agent(prompt)` call of `invoke_agent` with its
`except Exception` handler: any failure becomes the no-kwargs error text. -/
def invokeFinal (agent : AgentBehaviour) (prompt : String) : String :=
  match agent prompt none with
  | .ok t => t
  | .typeErr e => "Agent invocation error (no-kwargs): " ++ e
  | .err e => "Agent invocation error (no-kwargs): " ++ e

/-- The `for kwargs in (...)` loop of `invoke_agent`: `TypeError` moves on
to the next variant, any other exception returns its rendering, success
returns the text; an exhausted loop falls through to the bare call. -/
def invokeLoop (agent : AgentBehaviour) (prompt : String) : List Kwargs → String
  | [] => invokeFinal agent prompt
  | k :: rest =>
    match agent prompt (some k) with
    | .ok t => t
    | .typeErr _ => invokeLoop agent prompt rest
    | .err e => "Agent invocation error: " ++ e

/-- Model of `invoke_agent(agent, prompt, max_tokens)`: try the keyed variants in
order, then fall back to the bare call. -/
def invoke_agent (agent : AgentBehaviour) (prompt : String) (max_tokens : Nat) : String :=
  invokeLoop agent prompt (kwargsVariants max_tokens)

/-- The invocation algorithm in the spec's words, for comparison with
`invoke_agent`: take the outcome of the first variant (in the fixed
order) whose failure is not of the shape-mismatch class — its text on
success, its rendered failure otherwise — and if every keyed variant is
a shape mismatch, the result of one final call with no optional
parameters. -/
def specInvocationAdapter (agent : AgentBehaviour) (prompt : String) (max_tokens : Nat) : String :=
  match ((kwargsVariants max_tokens).map fun k => agent prompt (some k)).find?
      (fun r => !r.isTypeErr) with
  | some (.ok t) => t
  | some (.err e) => "Agent invocation error: " ++ e
  | some (.typeErr _) => invokeFinal agent prompt
  | none => invokeFinal agent prompt

/-- A mock capability that raises the shape-mismatch class for every keyed
variant and succeeds on the bare call. -/
def mockFallbackAgent : AgentBehaviour := fun _ k =>
  match k with
  | some _ => CallResult.typeErr "unexpected keyword argument"
  | none => CallResult.ok "fallback response"

/-! ## Search capability adapter (`websearch`) -/

/-- One DuckDuckGo search result record (title/href/body of `DDGS().text`). -/
structure SearchResult where
  title : String
  href : String
  body : String
deriving DecidableEq, Repr

/-- Outcome of the underlying `DDGS().text(keywords, region, max_results)`
call: a (possibly empty) result list, or one of the three modeled failure
classes — rate limiting, a provider-side search error, or any other
exception — each carrying its description. -/
inductive SearchOutcome where
  | ok (results : List SearchResult)
  | rateLimited (msg : String)
  | searchError (msg : String)
  | otherError (msg : String)
deriving DecidableEq, Repr

/-- The search backend's behaviour on keywords, region and max results. -/
def SearchBackend : Type := String → String → Option Nat → SearchOutcome

/-- The dynamic value `websearch` actually returns: a string on the
empty-result and failure branches, the raw result list on success
(despite the function's declared `str` return type). -/
inductive SearchReturn where
  | text (s : String)
  | results (rs : List SearchResult)
deriving DecidableEq, Repr

/-- Model of `websearch(keywords, region, max_results)`: delegate to the backend;
a non-empty result list is returned as-is, an empty one becomes the
literal no-results string, and each failure class becomes its
descriptive string. -/
def websearch (ddgs : SearchBackend) (keywords : String) (region : String)
    (max_results : Option Nat) : SearchReturn :=
  match ddgs keywords region max_results with
  | .ok rs => if rs.isEmpty then .text "No results found." else .results rs
  | .rateLimited _ => .text "RatelimitException: Please try again after a short delay."
  | .searchError d => .text ("DuckDuckGoSearchException: " ++ d)
  | .otherError e => .text ("Exception: " ++ e)

/-- A mock backend raising each failure class in turn depending on the
keywords, succeeding with an empty result set otherwise. -/
def mockSearchBackend : SearchBackend := fun keywords _ _ =>
  if keywords = "rate" then SearchOutcome.rateLimited "429"
  else if keywords = "provider" then SearchOutcome.searchError "backend down"
  else if keywords = "other" then SearchOutcome.otherError "boom"
  else SearchOutcome.ok []

/-- A mock backend returning one concrete non-empty result list. -/
def mockHitBackend : SearchBackend := fun _ _ _ =>
  SearchOutcome.ok [{ title := "Apple Inc.", href := "https://example.com", body := "news" }]

/-! ## Specialist delegation and the deterministic four-stage pipeline -/

/-- Python string slicing `s[:n]`: the first `n` characters (all of `s`
when it is shorter). -/
def pySlice (s : String) (n : Nat) : String := String.mk (s.data.take n)

/-- The prompt built by `market_intel_tool(ticker, lookback_days)`. -/
def market_intel_prompt (ticker : String) (lookback_days : Nat) : String :=
  "Research " ++ ticker ++ " for the last " ++ toString lookback_days ++ " days. " ++
  "Use `websearch` to find SEC filings, reputable news, and analyst commentary. " ++
  "Provide sources and a concise market summary. " ++
  "End with: \"This analysis is for educational purposes only and does not constitute financial advice.\""

/-- The prompt built by `strategy_architect_tool(ticker, risk_attitude, horizon)`. -/
def strategy_architect_prompt (ticker risk_attitude horizon : String) : String :=
  "Based on market context for " ++ ticker ++ ", generate 5 distinct strategies. " ++
  "Align to risk attitude: " ++ risk_attitude ++ "; and horizon: " ++ horizon ++ ". " ++
  "For each: objective, thesis, entry/exit, risk, and expected conditions. " ++
  "End with: \"These strategies are for educational purposes only and do not constitute financial advice.\""

/-- The prompt built by `execution_planner_tool(ticker, strategy_summary)`. -/
def execution_planner_prompt (ticker strategy_summary : String) : String :=
  "Convert the following strategy summary for " ++ ticker ++
  " into a detailed execution plan:\n\n" ++ strategy_summary ++ "\n\n" ++
  "Include order types, sizing, timing windows, and risk controls (stops, limits, hedges). " ++
  "End with: \"This execution plan is for educational purposes only and does not constitute financial advice.\""

/-- The prompt built by
`risk_assessor_tool(ticker, market_summary, strategies_summary, execution_plan)`. -/
def risk_assessor_prompt (ticker market_summary strategies_summary execution_plan : String) :
    String :=
  "Evaluate overall risk for " ++ ticker ++ ". Consider:\n" ++
  "- Market summary:\n" ++ market_summary ++ "\n\n" ++
  "- Strategies summary:\n" ++ strategies_summary ++ "\n\n" ++
  "- Execution plan:\n" ++ execution_plan ++ "\n\n" ++
  "Identify misalignments, key risks, and actionable mitigations. " ++
  "End with: \"This risk assessment is for educational purposes only and does not constitute financial advice.\""

/-- Model of `market_intel_tool`: build the market prompt and drive it through the
invocation adapter at the token cap. -/
def market_intel_tool (agent : AgentBehaviour) (ticker : String) (lookback_days : Nat) :
    String :=
  invoke_agent agent (market_intel_prompt ticker lookback_days) TOKEN_CAP

/-- Model of `strategy_architect_tool`: build the strategy prompt and drive it
through the invocation adapter at the token cap. -/
def strategy_architect_tool (agent : AgentBehaviour) (ticker risk_attitude horizon : String) :
    String :=
  invoke_agent agent (strategy_architect_prompt ticker risk_attitude horizon) TOKEN_CAP

/-- Model of `execution_planner_tool`: build the execution prompt and drive it
through the invocation adapter at the token cap. -/
def execution_planner_tool (agent : AgentBehaviour) (ticker strategy_summary : String) :
    String :=
  invoke_agent agent (execution_planner_prompt ticker strategy_summary) TOKEN_CAP

/-- Model of `risk_assessor_tool`: build the risk prompt and drive it through the
invocation adapter at the token cap. -/
def risk_assessor_tool (agent : AgentBehaviour)
    (ticker market_summary strategies_summary execution_plan : String) : String :=
  invoke_agent agent
    (risk_assessor_prompt ticker market_summary strategies_summary execution_plan) TOKEN_CAP

/-- The four specialist delegation functions seen by the orchestrator
(`get_market_analysis`, `get_strategies`, `get_execution_plan`,
`get_risk_assessment`), each a function of its structured inputs. -/
structure Specialists where
  marketIntel : String → Nat → String
  strategyArchitect : String → String → String → String
  executionPlanner : String → String → String
  riskAssessor : String → String → String → String → String

/-- The specialists as the source wires them: each orchestrator method
delegates to its tool, which prompts its agent through `invoke_agent`. -/
def orchestratorSpecialists (marketAgent strategyAgent execAgent riskAgent : AgentBehaviour) :
    Specialists where
  marketIntel := market_intel_tool marketAgent
  strategyArchitect := strategy_architect_tool strategyAgent
  executionPlanner := execution_planner_tool execAgent
  riskAssessor := risk_assessor_tool riskAgent

/-- One specialist invocation event with the exact arguments it received. -/
inductive SpecCall where
  | market (ticker : String) (lookback_days : Nat)
  | strategy (ticker risk_attitude horizon : String)
  | execution (ticker strategy_summary : String)
  | risk (ticker market_summary strategies_summary execution_plan : String)
deriving DecidableEq, Repr

/-- The dictionary returned by `run_complete_analysis`, field per key. -/
structure AnalysisResults where
  ticker : String
  risk_attitude : String
  horizon : String
  market_analysis : String
  strategies : String
  execution_plan : String
  risk_assessment : String
deriving DecidableEq, Repr

/-- Model of `run_complete_analysis(ticker, risk_attitude, horizon, lookback_days)`:
market analysis, then strategies, then the execution plan on the
2000-character prefix of the strategies, then the risk assessment on the
2000-character prefixes of all three upstream outputs; alongside the
result dictionary, the trace of specialist invocations in execution
order with the exact arguments passed. -/
def run_complete_analysis (sp : Specialists) (ticker risk_attitude horizon : String)
    (lookback_days : Nat) : AnalysisResults × List SpecCall :=
  let market_analysis := sp.marketIntel ticker lookback_days
  let strategies := sp.strategyArchitect ticker risk_attitude horizon
  let execution_plan := sp.executionPlanner ticker (pySlice strategies 2000)
  let risk_assessment := sp.riskAssessor ticker (pySlice market_analysis 2000)
    (pySlice strategies 2000) (pySlice execution_plan 2000)
  (⟨ticker, risk_attitude, horizon, market_analysis, strategies,
    execution_plan, risk_assessment⟩,
   [SpecCall.market ticker lookback_days,
    SpecCall.strategy ticker risk_attitude horizon,
    SpecCall.execution ticker (pySlice strategies 2000),
    SpecCall.risk ticker (pySlice market_analysis 2000) (pySlice strategies 2000)
      (pySlice execution_plan 2000)])

/-- A stub specialist set whose strategy output is 2001 characters long. -/
def stubSpecialists : Specialists where
  marketIntel := fun _ _ => "market summary"
  strategyArchitect := fun _ _ _ => String.mk (List.replicate 2001 's')
  executionPlanner := fun _ _ => "execution plan"
  riskAssessor := fun _ _ _ _ => "risk assessment"

/-! ## Dynamic values, exceptions, and the orchestrator entrypoints -/

/-- A dynamic Python value, as far as the boundary code inspects one:
`None`, booleans, integers, strings, lists and string-keyed dicts. -/
inductive PyValue where
  | pynone
  | pybool (b : Bool)
  | pyint (n : Int)
  | pystr (s : String)
  | pylist (l : List PyValue)
  | pydict (entries : List (String × PyValue))

/-- Python truthiness of a value (`bool(v)`). -/
def PyValue.truthy : PyValue → Bool
  | .pynone => false
  | .pybool b => b
  | .pyint n => n != 0
  | .pystr s => s != ""
  | .pylist [] => false
  | .pylist (_ :: _) => true
  | .pydict [] => false
  | .pydict (_ :: _) => true

/-- Python `isinstance(v, str)`. -/
def PyValue.isStr : PyValue → Bool
  | .pystr _ => true
  | _ => false

/-- The exception classes the AgentCore entrypoint distinguishes. -/
inductive PyExc where
  | valueError (msg : String)
  | ratelimit (msg : String)
  | ddgSearch (msg : String)
  | typeError (msg : String)
  | memoryError (msg : String)
  | connectionError (msg : String)
  | timeoutError (msg : String)
  | permissionError (msg : String)
  | other (name : String) (msg : String)

/-- Model of `FinancialAdvisorOrchestrator.analyze(user_query)`:
`str(self.agent(user_query))` — the orchestrator agent's call, whose
successful result is already rendered to a string and whose exceptions
propagate to the caller. -/
def analyze (agentCall : String → Except PyExc String) (user_query : String) :
    Except PyExc String :=
  agentCall user_query

/-- The dictionary value `run_complete_analysis` actually returns: the
three echoed inputs and the four stage outputs, each a string. -/
def run_complete_analysis_dict (sp : Specialists) (ticker risk_attitude horizon : String)
    (lookback_days : Nat) : PyValue :=
  let res := (run_complete_analysis sp ticker risk_attitude horizon lookback_days).1
  PyValue.pydict
    [("ticker", PyValue.pystr res.ticker),
     ("risk_attitude", PyValue.pystr res.risk_attitude),
     ("horizon", PyValue.pystr res.horizon),
     ("market_analysis", PyValue.pystr res.market_analysis),
     ("strategies", PyValue.pystr res.strategies),
     ("execution_plan", PyValue.pystr res.execution_plan),
     ("risk_assessment", PyValue.pystr res.risk_assessment)]

/-! ## AgentCore request boundary -/

/-- Maximum inbound prompt length (`MAX_INPUT_LENGTH = 5000`). -/
def MAX_INPUT_LENGTH : Nat := 5000

/-- Python `str.strip()` whitespace at the character level. -/
def isPySpace (c : Char) : Bool :=
  c = ' ' || c = '\t' || c = '\n' || c = '\r' || c = '\x0b' || c = '\x0c'

/-- Python `s.strip()`: drop leading and trailing whitespace. -/
def pyStrip (s : String) : String :=
  String.mk (((s.data.dropWhile isPySpace).reverse.dropWhile isPySpace).reverse)

/-- Python `s.lower()` (ASCII, which covers the deny-list patterns). -/
def pyLower (s : String) : String :=
  String.mk (s.data.map Char.toLower)

/-- Python `pattern in haystack`: substring containment. -/
def strContainsSub (haystack pattern : String) : Bool :=
  haystack.data.tails.any fun t => pattern.data.isPrefixOf t

/-- The deny-listed substrings of the boundary validator
(`suspicious_patterns` in the source). -/
def suspicious_patterns : List String :=
  ["<script", "javascript:", "eval(", "exec(", "__import__", "subprocess", "os.system"]

/-- Python `payload.get("prompt", "")`. -/
def promptField (entries : List (String × PyValue)) : PyValue :=
  ((entries.find? fun kv => kv.1 == "prompt").map Prod.snd).getD (PyValue.pystr "")

/-- The guidance message raised for a missing or falsy prompt. -/
def missingPromptMsg : String :=
  "Please provide a financial advisory request. " ++
  "Include ticker symbol, risk tolerance (Conservative/Moderate/Aggressive), " ++
  "and investment horizon (Short-term/Medium-term/Long-term) for best results. " ++
  "Example: \x27Analyze AAPL stock for moderate risk investor with long-term horizon\x27"

/-- The message raised for a truthy non-string prompt. -/
def promptTypeMsg : String :=
  "The \x27prompt\x27 field must be a string containing your financial query"

/-- The message raised for an over-long prompt. -/
def queryTooLongMsg : String :=
  "Query too long. Maximum " ++ toString MAX_INPUT_LENGTH ++ " characters allowed."

/-- The message raised when a deny-listed substring is detected. -/
def invalidCharsMsg : String :=
  "Invalid characters detected in query. " ++
  "Please provide a standard financial advisory request."

/-- The message raised for an all-whitespace prompt. -/
def whitespaceMsg : String :=
  "Please provide a non-empty financial advisory request. " ++
  "Include ticker symbol, risk tolerance, and investment horizon for best results."

/-- Model of `process_agentcore_payload(payload)`: reject a non-dict payload; get
the prompt with `""` as default; reject a falsy prompt, then a
non-string prompt; strip it; reject when the stripped query exceeds the
length limit, when its lowercased form contains a deny-listed substring,
or when it is empty; otherwise accept the stripped query. `Except.error`
is the raised `ValueError` with its message. -/
def process_agentcore_payload (payload : PyValue) : Except String String :=
  match payload with
  | .pydict entries =>
    let user_query := promptField entries
    if user_query.truthy = false then
      Except.error missingPromptMsg
    else
      match user_query with
      | .pystr s =>
        let processed := pyStrip s
        if MAX_INPUT_LENGTH < processed.length then
          Except.error queryTooLongMsg
        else if suspicious_patterns.any (fun p => strContainsSub (pyLower processed) p) then
          Except.error invalidCharsMsg
        else if processed = "" then
          Except.error whitespaceMsg
        else
          Except.ok processed
      | _ => Except.error promptTypeMsg
  | _ => Except.error "Payload must be a dictionary"

/-- The metadata block of the AgentCore success envelope. -/
structure ResponseMetadata where
  version : String
  agent_type : String
  educational_disclaimer : Bool
  response_format : String
  capabilities : List String
  disclaimer : String
  character_count : Nat
deriving DecidableEq, Repr

/-- The AgentCore success envelope (timestamps abstracted away). -/
structure FormattedResponse where
  result : String
  system : String
  metadata : ResponseMetadata
deriving DecidableEq, Repr

/-- Model of `format_agentcore_response(advisor_response)`: wrap the advisor text
unchanged in the structured envelope with the fixed metadata. -/
def format_agentcore_response (advisor_response : String) : FormattedResponse where
  result := advisor_response
  system := "financial-advisor-multiagent"
  metadata :=
    { version := "1.0.0"
      agent_type := "financial_advisor"
      educational_disclaimer := true
      response_format := "structured_analysis"
      capabilities :=
        ["market_intelligence", "strategy_development",
         "execution_planning", "risk_assessment"]
      disclaimer := "Educational purposes only - not licensed financial advice"
      character_count := if advisor_response = "" then 0 else advisor_response.length }

/-- The AgentCore error envelope (timestamps abstracted away). -/
structure ErrorEnvelope where
  error : String
  error_type : String
  system : String
deriving DecidableEq, Repr

/-- What the `invoke` entrypoint returns: a success envelope or an error
envelope. -/
inductive InvokeResult where
  | success (r : FormattedResponse)
  | failure (e : ErrorEnvelope)
deriving DecidableEq, Repr

/-- The advisor orchestration as seen from the entrypoint
(`invoke_financial_advisor_with_logging`, which re-raises whatever
`advisor.analyze` raises). -/
def AdvisorFn : Type := String → Except PyExc String

/-- The `invoke(payload)` entrypoint: validate the payload, run the
advisor, format the response; each caught exception class becomes its
structured error envelope. -/
def invoke (advisor : AdvisorFn) (payload : PyValue) : InvokeResult :=
  match process_agentcore_payload payload with
  | .error m =>
    .failure
      { error := "Invalid request format: " ++ m
        error_type := "validation_error"
        system := "financial-advisor-multiagent" }
  | .ok user_query =>
    match advisor user_query with
    | .ok response => .success (format_agentcore_response response)
    | .error (.valueError m) =>
      .failure
        { error := "Invalid request format: " ++ m
          error_type := "validation_error"
          system := "financial-advisor-multiagent" }
    | .error (.ratelimit _) =>
      .failure
        { error := "Web search rate limit exceeded. Please try again after a short delay."
          error_type := "rate_limit_error"
          system := "financial-advisor-multiagent" }
    | .error (.ddgSearch _) =>
      .failure
        { error := "Web search service temporarily unavailable. Analysis may be limited."
          error_type := "web_search_error"
          system := "financial-advisor-multiagent" }
    | .error (.typeError _) =>
      .failure
        { error := "Agent configuration error. Using fallback mechanisms."
          error_type := "agent_parameter_error"
          system := "financial-advisor-multiagent" }
    | .error (.memoryError _) =>
      .failure
        { error := "Request too large. Please try with a shorter query."
          error_type := "memory_error"
          system := "financial-advisor-multiagent" }
    | .error (.connectionError _) =>
      .failure
        { error := "Network connectivity issue. Please try again."
          error_type := "connection_error"
          system := "financial-advisor-multiagent" }
    | .error (.timeoutError _) =>
      .failure
        { error := "Request timeout. The analysis is taking longer than expected."
          error_type := "timeout_error"
          system := "financial-advisor-multiagent" }
    | .error (.permissionError _) =>
      .failure
        { error := "Access denied. Please check your permissions."
          error_type := "permission_error"
          system := "financial-advisor-multiagent" }
    | .error (.other _ _) =>
      .failure
        { error := "An unexpected error occurred processing your financial advisory request"
          error_type := "system_error"
          system := "financial-advisor-multiagent" }

/-- A stub advisor that always succeeds with fixed text. -/
def stubAdvisor : AdvisorFn := fun _ => Except.ok "advisory text"

/-! ## Theorems: the claims settled against the embedding -/

/-- C1: `invoke_agent` tries the four keyed variants in the fixed source
order; shape-mismatch failures advance to the next variant, any other
failure is returned rendered as text at once, success is returned at
once, and when all four variants are shape mismatches one bare call
decides the result — in particular an agent that rejects every keyed
variant but succeeds bare yields the bare call's text. -/
theorem invoke_agent_variant_fallback (agent : AgentBehaviour) (p : String) (m : Nat) :
    kwargsVariants m =
      [Kwargs.maxOutputTokens m, Kwargs.maxTokens m,
       Kwargs.generationConfig m, Kwargs.inferenceParams m] ∧
    invoke_agent agent p m = specInvocationAdapter agent p m ∧
    (∀ t, ((kwargsVariants m).all fun k => (agent p (some k)).isTypeErr) = true →
      agent p none = CallResult.ok t → invoke_agent agent p m = t) := by
  refine ⟨rfl, ?_, ?_⟩
  · unfold invoke_agent specInvocationAdapter kwargsVariants
    cases h0 : agent p (some (Kwargs.maxOutputTokens m)) <;>
      cases h1 : agent p (some (Kwargs.maxTokens m)) <;>
        cases h2 : agent p (some (Kwargs.generationConfig m)) <;>
          cases h3 : agent p (some (Kwargs.inferenceParams m)) <;>
            simp [invokeLoop, CallResult.isTypeErr, h0, h1, h2, h3]
  · intro t hall hok
    unfold invoke_agent kwargsVariants
    simp only [kwargsVariants, List.all_cons, List.all_nil, Bool.and_true,
      Bool.and_eq_true] at hall
    obtain ⟨ha, hb, hc, hd⟩ := hall
    cases h0 : agent p (some (Kwargs.maxOutputTokens m)) <;>
      rw [h0] at ha <;> simp [CallResult.isTypeErr] at ha
    cases h1 : agent p (some (Kwargs.maxTokens m)) <;>
      rw [h1] at hb <;> simp [CallResult.isTypeErr] at hb
    cases h2 : agent p (some (Kwargs.generationConfig m)) <;>
      rw [h2] at hc <;> simp [CallResult.isTypeErr] at hc
    cases h3 : agent p (some (Kwargs.inferenceParams m)) <;>
      rw [h3] at hd <;> simp [CallResult.isTypeErr] at hd
    simp [invokeLoop, h0, h1, h2, h3, invokeFinal, hok]

/-- C1 witness: the mock that rejects every keyed variant but succeeds bare
returns the bare call's success text. -/
theorem invoke_agent_variant_fallback_witness :
    invoke_agent mockFallbackAgent "Analyze AAPL" 2000 = "fallback response" :=
  (invoke_agent_variant_fallback mockFallbackAgent "Analyze AAPL" 2000).2.2
    "fallback response" (by decide) rfl

/-- C2: `invoke_agent` is total at its interface: whatever the capability
does on each attempted call, the result is a string that is either the
text of a successful underlying call or one of the two descriptive
failure renderings. -/
theorem invoke_agent_never_raises (agent : AgentBehaviour) (p : String) (m : Nat) :
    (∃ k : Option Kwargs, agent p k = CallResult.ok (invoke_agent agent p m)) ∨
    (∃ e, invoke_agent agent p m = "Agent invocation error: " ++ e) ∨
    (∃ e, invoke_agent agent p m = "Agent invocation error (no-kwargs): " ++ e) := by
  unfold invoke_agent
  generalize kwargsVariants m = l
  induction l with
  | nil =>
    cases h : agent p none with
    | ok t =>
      exact Or.inl ⟨none, by simp [invokeLoop, invokeFinal, h]⟩
    | typeErr e =>
      exact Or.inr (Or.inr ⟨e, by simp [invokeLoop, invokeFinal, h]⟩)
    | err e =>
      exact Or.inr (Or.inr ⟨e, by simp [invokeLoop, invokeFinal, h]⟩)
  | cons k rest ih =>
    cases h : agent p (some k) with
    | ok t =>
      exact Or.inl ⟨some k, by simp [invokeLoop, h]⟩
    | typeErr e =>
      simpa [invokeLoop, h] using ih
    | err e =>
      exact Or.inr (Or.inl ⟨e, by simp [invokeLoop, h]⟩)

/-- Two strings with distinct head characters differ, whatever follows. -/
theorem mk_append_ne_of_head_ne (a b : Char) (l₁ l₂ : List Char) (s t : String)
    (hab : a ≠ b) :
    String.mk (a :: l₁) ++ s ≠ String.mk (b :: l₂) ++ t := by
  intro h
  have hd : (String.mk (a :: l₁) ++ s).data = (String.mk (b :: l₂) ++ t).data := by rw [h]
  rw [String.data_append, String.data_append] at hd
  simp at hd
  exact hab hd.1

/-- C5: `websearch` never raises: rate limiting yields the fixed retry
advisory, a provider error yields a string embedding its detail, any
other exception yields a generic string embedding its description, an
empty result set yields the literal no-results string, and the three
failure strings are pairwise distinct and non-empty for every pair of
failure details. -/
theorem websearch_failure_text (ddgs : SearchBackend) (k r : String) (m : Option Nat) :
    (∀ msg, ddgs k r m = SearchOutcome.rateLimited msg →
      websearch ddgs k r m =
        SearchReturn.text "RatelimitException: Please try again after a short delay.") ∧
    (∀ d, ddgs k r m = SearchOutcome.searchError d →
      websearch ddgs k r m = SearchReturn.text ("DuckDuckGoSearchException: " ++ d)) ∧
    (∀ e, ddgs k r m = SearchOutcome.otherError e →
      websearch ddgs k r m = SearchReturn.text ("Exception: " ++ e)) ∧
    (ddgs k r m = SearchOutcome.ok [] →
      websearch ddgs k r m = SearchReturn.text "No results found.") ∧
    (∀ d e : String,
      ("RatelimitException: Please try again after a short delay." : String) ≠
        "DuckDuckGoSearchException: " ++ d ∧
      ("RatelimitException: Please try again after a short delay." : String) ≠
        "Exception: " ++ e ∧
      ("DuckDuckGoSearchException: " ++ d) ≠ ("Exception: " ++ e) ∧
      ("RatelimitException: Please try again after a short delay." : String) ≠ "" ∧
      ("DuckDuckGoSearchException: " ++ d) ≠ "" ∧
      ("Exception: " ++ e) ≠ "") := by
  refine ⟨?_, ?_, ?_, ?_, ?_⟩
  · intro msg h; simp [websearch, h]
  · intro d h; simp [websearch, h]
  · intro e h; simp [websearch, h]
  · intro h; simp [websearch, h]
  · intro d e
    refine ⟨?_, ?_, ?_, ?_, ?_, ?_⟩
    · have := mk_append_ne_of_head_ne 'R' 'D'
        "atelimitException: Please try again after a short delay.".data
        "uckDuckGoSearchException: ".data "" d (by decide)
      simpa using this
    · have := mk_append_ne_of_head_ne 'R' 'E'
        "atelimitException: Please try again after a short delay.".data
        "xception: ".data "" e (by decide)
      simpa using this
    · exact mk_append_ne_of_head_ne 'D' 'E' "uckDuckGoSearchException: ".data
        "xception: ".data d e (by decide)
    · decide
    · intro h
      have hd := congrArg String.data h
      rw [String.data_append] at hd
      simp at hd
    · intro h
      have hd := congrArg String.data h
      rw [String.data_append] at hd
      simp at hd

/-- C5 witness: on the mock backend the three failure classes each map to
their descriptive string and an empty result set maps to the literal
no-results string. -/
theorem websearch_failure_text_witness :
    websearch mockSearchBackend "rate" "us-en" none =
      SearchReturn.text "RatelimitException: Please try again after a short delay." ∧
    websearch mockSearchBackend "provider" "us-en" none =
      SearchReturn.text "DuckDuckGoSearchException: backend down" ∧
    websearch mockSearchBackend "other" "us-en" none =
      SearchReturn.text "Exception: boom" ∧
    websearch mockSearchBackend "AAPL news" "us-en" none =
      SearchReturn.text "No results found." :=
  ⟨(websearch_failure_text mockSearchBackend "rate" "us-en" none).1 "429" (by decide),
   (websearch_failure_text mockSearchBackend "provider" "us-en" none).2.1
     "backend down" (by decide),
   (websearch_failure_text mockSearchBackend "other" "us-en" none).2.2.1 "boom" (by decide),
   (websearch_failure_text mockSearchBackend "AAPL news" "us-en" none).2.2.2.1 (by decide)⟩

/-- C8: when the underlying search call succeeds with a non-empty result
set, `websearch` returns the raw result list unchanged (not a string);
a string comes back only from the empty-result branch or a failure
branch. -/
theorem websearch_returns_raw_results (ddgs : SearchBackend) (k r : String) (m : Option Nat) :
    (∀ rs, ddgs k r m = SearchOutcome.ok rs → rs ≠ [] →
      websearch ddgs k r m = SearchReturn.results rs) ∧
    (∀ s, websearch ddgs k r m = SearchReturn.text s →
      ddgs k r m = SearchOutcome.ok [] ∨
      (∃ d, ddgs k r m = SearchOutcome.rateLimited d) ∨
      (∃ d, ddgs k r m = SearchOutcome.searchError d) ∨
      (∃ d, ddgs k r m = SearchOutcome.otherError d)) := by
  constructor
  · intro rs h hne
    simp [websearch, h, hne]
  · intro s h
    cases hb : ddgs k r m with
    | ok rs =>
      cases rs with
      | nil => exact Or.inl rfl
      | cons a tl => simp [websearch, hb] at h
    | rateLimited d => exact Or.inr (Or.inl ⟨d, rfl⟩)
    | searchError d => exact Or.inr (Or.inr (Or.inl ⟨d, rfl⟩))
    | otherError d => exact Or.inr (Or.inr (Or.inr ⟨d, rfl⟩))

/-- C8 witness: a backend with one hit gets its raw list back unchanged. -/
theorem websearch_returns_raw_results_witness :
    websearch mockHitBackend "AAPL" "us-en" (some 5) =
      SearchReturn.results
        [{ title := "Apple Inc.", href := "https://example.com", body := "news" }] :=
  (websearch_returns_raw_results mockHitBackend "AAPL" "us-en" (some 5)).1
    [{ title := "Apple Inc.", href := "https://example.com", body := "news" }]
    (by decide) (by decide)

/-- C3: in the deterministic pipeline the execution stage receives the
2000-character prefix cut of the strategy output and the risk stage
receives the prefix cuts of all three upstream outputs; a prefix cut is
a prefix of the original, has length exactly 2000 whenever the original
is longer than 2000, and leaves a string of length at most 2000
unchanged. -/
theorem pipeline_truncation (sp : Specialists) (t r h : String) (d : Nat) :
    (run_complete_analysis sp t r h d).2 =
      [SpecCall.market t d,
       SpecCall.strategy t r h,
       SpecCall.execution t (pySlice (sp.strategyArchitect t r h) 2000),
       SpecCall.risk t (pySlice (sp.marketIntel t d) 2000)
         (pySlice (sp.strategyArchitect t r h) 2000)
         (pySlice (sp.executionPlanner t (pySlice (sp.strategyArchitect t r h) 2000)) 2000)] ∧
    ∀ s : String,
      (pySlice s 2000).data <+: s.data ∧
      (2000 < s.length → (pySlice s 2000).length = 2000 ∧
        (pySlice s 2000).data = s.data.take 2000) ∧
      (s.length ≤ 2000 → pySlice s 2000 = s) := by
  refine ⟨rfl, ?_⟩
  intro s
  refine ⟨⟨s.data.drop 2000, List.take_append_drop 2000 s.data⟩, ?_, ?_⟩
  · intro hlong
    refine ⟨?_, rfl⟩
    show (String.mk (s.data.take 2000)).length = 2000
    rw [String.length_mk, List.length_take]
    exact Nat.min_eq_left (Nat.le_of_lt hlong)
  · intro hshort
    have hdata : s.data.take 2000 = s.data := List.take_of_length_le hshort
    show String.mk (s.data.take 2000) = s
    rw [hdata]

/-- C3 witness: a 2001-character strategy output is cut to exactly 2000
characters, and a short string passes unchanged. -/
theorem pipeline_truncation_witness :
    (pySlice (String.mk (List.replicate 2001 's')) 2000).length = 2000 ∧
    pySlice "short strategy summary" 2000 = "short strategy summary" := by
  constructor
  · exact ((pipeline_truncation stubSpecialists "AAPL" "Moderate" "Medium-term" 7).2
      (String.mk (List.replicate 2001 's'))).2.1
      (by rw [String.length_mk, List.length_replicate]; norm_num) |>.1
  · exact ((pipeline_truncation stubSpecialists "AAPL" "Moderate" "Medium-term" 7).2
      "short strategy summary").2.2 (by decide)

/-- C4: for every input the deterministic pipeline invokes exactly the
four specialists, in the fixed order Market, Strategy, Execution, Risk:
the trace has length four, Market is first and Strategy second,
Execution comes third with an argument computed from Strategy's output,
and Risk comes fourth receiving values computed from all three upstream
outputs — no call is skipped or reordered, whatever text (including
failure text) each specialist returns. -/
theorem pipeline_stage_order (sp : Specialists) (t r h : String) (d : Nat) :
    (run_complete_analysis sp t r h d).2.length = 4 ∧
    (run_complete_analysis sp t r h d).2.get? 0 = some (SpecCall.market t d) ∧
    (run_complete_analysis sp t r h d).2.get? 1 = some (SpecCall.strategy t r h) ∧
    (run_complete_analysis sp t r h d).2.get? 2 =
      some (SpecCall.execution t (pySlice ((run_complete_analysis sp t r h d).1.strategies) 2000)) ∧
    (run_complete_analysis sp t r h d).2.get? 3 =
      some (SpecCall.risk t
        (pySlice ((run_complete_analysis sp t r h d).1.market_analysis) 2000)
        (pySlice ((run_complete_analysis sp t r h d).1.strategies) 2000)
        (pySlice ((run_complete_analysis sp t r h d).1.execution_plan) 2000)) ∧
    (run_complete_analysis sp t r h d).1.execution_plan =
      sp.executionPlanner t (pySlice ((run_complete_analysis sp t r h d).1.strategies) 2000) ∧
    (run_complete_analysis sp t r h d).1.risk_assessment =
      sp.riskAssessor t
        (pySlice ((run_complete_analysis sp t r h d).1.market_analysis) 2000)
        (pySlice ((run_complete_analysis sp t r h d).1.strategies) 2000)
        (pySlice ((run_complete_analysis sp t r h d).1.execution_plan) 2000) :=
  ⟨rfl, rfl, rfl, rfl, rfl, rfl, rfl⟩

/-- C7 counterexample: at a concrete input the deterministic pipeline's
terminal value is a dictionary, not a single string. -/
theorem run_complete_analysis_not_a_string :
    (run_complete_analysis_dict stubSpecialists "AAPL" "Moderate" "Medium-term" 7).isStr
      = false := rfl

/-- C7 amended: `analyze` terminates in a single string (the rendered
orchestrator-agent result), while `run_complete_analysis` terminates in
a dictionary with the seven fixed keys whose every value is a string;
neither has a structured success/failure split. -/
theorem entrypoint_terminal_outputs (sp : Specialists) (t r h : String) (d : Nat)
    (q agentText : String) :
    analyze (fun _ => Except.ok agentText) q = Except.ok agentText ∧
    (run_complete_analysis_dict sp t r h d).isStr = false ∧
    ∃ entries : List (String × PyValue),
      run_complete_analysis_dict sp t r h d = PyValue.pydict entries ∧
      entries.map Prod.fst =
        ["ticker", "risk_attitude", "horizon", "market_analysis",
         "strategies", "execution_plan", "risk_assessment"] ∧
      (entries.all fun kv => kv.2.isStr) = true := by
  exact ⟨rfl, rfl, _, rfl, rfl, rfl⟩

/-- C9: the response formatter sets the educational-disclaimer flag to
`true` for every input string and passes the advisor response through
unchanged into the `result` field — independent of the text's content. -/
theorem format_response_unconditional_disclaimer (s : String) :
    (format_agentcore_response s).metadata.educational_disclaimer = true ∧
    (format_agentcore_response s).result = s :=
  ⟨rfl, rfl⟩

theorem pyStrip_empty : pyStrip "" = "" := rfl

theorem invoke_validation_of_process_error (advisor : AdvisorFn) (payload : PyValue)
    (m : String) (h : process_agentcore_payload payload = Except.error m) :
    ∃ env, invoke advisor payload = InvokeResult.failure env ∧
      env.error_type = "validation_error" := by
  refine ⟨⟨"Invalid request format: " ++ m, "validation_error",
    "financial-advisor-multiagent"⟩, ?_, rfl⟩
  simp [invoke, h]

theorem process_error_of_not_str (payload : List (String × PyValue))
    (h : (promptField payload).isStr = false) :
    ∃ m, process_agentcore_payload (PyValue.pydict payload) = Except.error m := by
  simp only [process_agentcore_payload]
  cases hq : promptField payload with
  | pystr s => rw [hq] at h; simp [PyValue.isStr] at h
  | pynone => exact ⟨missingPromptMsg, by simp [hq, PyValue.truthy]⟩
  | pybool b =>
    cases b with
    | false => exact ⟨missingPromptMsg, by simp [hq, PyValue.truthy]⟩
    | true => exact ⟨promptTypeMsg, by simp [hq, PyValue.truthy]⟩
  | pyint n =>
    by_cases hn : n = 0
    · subst hn; exact ⟨missingPromptMsg, by simp [hq, PyValue.truthy]⟩
    · have hb : (n != 0) = true := by simpa [bne_iff_ne] using hn
      exact ⟨promptTypeMsg, by simp [hq, PyValue.truthy, hb]⟩
  | pylist l =>
    cases l with
    | nil => exact ⟨missingPromptMsg, by simp [hq, PyValue.truthy]⟩
    | cons a tl => exact ⟨promptTypeMsg, by simp [hq, PyValue.truthy]⟩
  | pydict e =>
    cases e with
    | nil => exact ⟨missingPromptMsg, by simp [hq, PyValue.truthy]⟩
    | cons a tl => exact ⟨promptTypeMsg, by simp [hq, PyValue.truthy]⟩

/-- C6: the boundary validator accepts exactly the payloads whose prompt is
a string that is non-empty after trimming, within the length limit, and
free of deny-listed substrings, returning the trimmed query; payloads
whose prompt is empty or all-whitespace, not a string, over-long, or
containing a deny-listed substring are rejected, and the entrypoint maps
the rejection to an error envelope with `error_type` `validation_error`. -/
theorem boundary_prompt_validation (advisor : AdvisorFn)
    (payload : List (String × PyValue)) :
    (∀ s, promptField payload = PyValue.pystr s → pyStrip s ≠ "" →
      (pyStrip s).length ≤ MAX_INPUT_LENGTH →
      (suspicious_patterns.all fun p => !strContainsSub (pyLower (pyStrip s)) p) = true →
      process_agentcore_payload (PyValue.pydict payload) = Except.ok (pyStrip s)) ∧
    (∀ s, promptField payload = PyValue.pystr s → pyStrip s = "" →
      ∃ env, invoke advisor (PyValue.pydict payload) = InvokeResult.failure env ∧
        env.error_type = "validation_error") ∧
    ((promptField payload).isStr = false →
      ∃ env, invoke advisor (PyValue.pydict payload) = InvokeResult.failure env ∧
        env.error_type = "validation_error") ∧
    (∀ s, promptField payload = PyValue.pystr s →
      MAX_INPUT_LENGTH < (pyStrip s).length →
      ∃ env, invoke advisor (PyValue.pydict payload) = InvokeResult.failure env ∧
        env.error_type = "validation_error") ∧
    (∀ s, promptField payload = PyValue.pystr s →
      (suspicious_patterns.any fun p => strContainsSub (pyLower (pyStrip s)) p) = true →
      ∃ env, invoke advisor (PyValue.pydict payload) = InvokeResult.failure env ∧
        env.error_type = "validation_error") := by
  have hne_of_strip : ∀ s : String, pyStrip s ≠ "" → (s != "") = true := by
    intro s hne
    rcases eq_or_ne s "" with hs | hs
    · subst hs; exact absurd rfl hne
    · simpa [bne_iff_ne] using hs
  refine ⟨?_, ?_, ?_, ?_, ?_⟩
  · intro s hq hne hlen hall
    have hb := hne_of_strip s hne
    have hany : (suspicious_patterns.any fun p =>
        strContainsSub (pyLower (pyStrip s)) p) = false := by
      rw [List.any_eq_false]
      intro p hp
      have := List.all_eq_true.mp hall p hp
      simpa using this
    simp [process_agentcore_payload, hq, PyValue.truthy, hb,
      Nat.not_lt.mpr hlen, hany, hne]
  · intro s hq hstrip
    rcases eq_or_ne s "" with hs | hs
    · subst hs
      refine invoke_validation_of_process_error advisor _ missingPromptMsg ?_
      simp [process_agentcore_payload, hq, PyValue.truthy]
    · have hb : (s != "") = true := by simpa [bne_iff_ne] using hs
      refine invoke_validation_of_process_error advisor _ whitespaceMsg ?_
      have hany : (suspicious_patterns.any fun p =>
          strContainsSub (pyLower (pyStrip s)) p) = false := by
        rw [hstrip]; decide
      have hlen : ¬ MAX_INPUT_LENGTH < (pyStrip s).length := by
        rw [hstrip]; decide
      simp [process_agentcore_payload, hq, PyValue.truthy, hb, hstrip, hany, hlen]
      decide
  · intro h
    obtain ⟨m, hm⟩ := process_error_of_not_str payload h
    exact invoke_validation_of_process_error advisor _ m hm
  · intro s hq hlen
    have hne : pyStrip s ≠ "" := by
      intro h
      rw [h] at hlen
      simp [MAX_INPUT_LENGTH, String.length] at hlen
    have hb := hne_of_strip s hne
    refine invoke_validation_of_process_error advisor _ queryTooLongMsg ?_
    simp [process_agentcore_payload, hq, PyValue.truthy, hb, hlen]
  · intro s hq hany
    by_cases hlen : MAX_INPUT_LENGTH < (pyStrip s).length
    · have hne : pyStrip s ≠ "" := by
        intro h
        rw [h] at hlen
        simp [MAX_INPUT_LENGTH, String.length] at hlen
      have hb := hne_of_strip s hne
      refine invoke_validation_of_process_error advisor _ queryTooLongMsg ?_
      simp [process_agentcore_payload, hq, PyValue.truthy, hb, hlen]
    · have hne : pyStrip s ≠ "" := by
        intro h
        rw [h] at hany
        simp [strContainsSub, pyLower, pyStrip_empty, List.any_eq_true] at hany
        obtain ⟨p, hp, hinf⟩ := hany
        fin_cases hp <;> simp_all [List.isPrefixOf]
      have hb := hne_of_strip s hne
      refine invoke_validation_of_process_error advisor _ invalidCharsMsg ?_
      simp [process_agentcore_payload, hq, PyValue.truthy, hb, hlen, hany]

/-- C6 witness: a clean padded prompt is accepted trimmed; an empty prompt
is rejected with a validation-error envelope. -/
theorem boundary_prompt_validation_witness :
    process_agentcore_payload
        (PyValue.pydict [("prompt", PyValue.pystr "  Analyze AAPL stock  ")]) =
      Except.ok "Analyze AAPL stock" ∧
    ∃ env, invoke stubAdvisor (PyValue.pydict [("prompt", PyValue.pystr "")]) =
      InvokeResult.failure env ∧ env.error_type = "validation_error" := by
  constructor
  · exact (boundary_prompt_validation stubAdvisor
      [("prompt", PyValue.pystr "  Analyze AAPL stock  ")]).1
      "  Analyze AAPL stock  " rfl (by decide) (by decide) (by decide)
  · exact (boundary_prompt_validation stubAdvisor
      [("prompt", PyValue.pystr "")]).2.1 "" rfl rfl

/-- C10: the emptiness check precedes the type check, so every falsy
prompt value — string or not — is rejected with the missing-prompt
guidance message, only truthy non-string prompts reach the
must-be-a-string rejection, and both rejections are the same validation
error class, mapped by the entrypoint to a `validation_error` envelope. -/
theorem falsy_prompt_check_precedence (advisor : AdvisorFn) (v : PyValue) :
    (v.truthy = false →
      process_agentcore_payload (PyValue.pydict [("prompt", v)]) =
        Except.error missingPromptMsg) ∧
    (v.truthy = true → v.isStr = false →
      process_agentcore_payload (PyValue.pydict [("prompt", v)]) =
        Except.error promptTypeMsg) ∧
    (v.isStr = false →
      ∃ env, invoke advisor (PyValue.pydict [("prompt", v)]) = InvokeResult.failure env ∧
        env.error_type = "validation_error") := by
  have hfield : promptField [("prompt", v)] = v := rfl
  refine ⟨?_, ?_, ?_⟩
  · intro hfalsy
    simp [process_agentcore_payload, hfield, hfalsy]
  · intro htruthy hnostr
    cases v <;> simp_all [process_agentcore_payload, hfield, PyValue.isStr]
  · intro hnostr
    obtain ⟨m, hm⟩ := process_error_of_not_str [("prompt", v)] (by rwa [hfield])
    exact invoke_validation_of_process_error advisor _ m hm

/-- C10 witness: the falsy non-string `0` gets the missing-prompt message,
the truthy non-string `[None]` gets the must-be-a-string message, and
both map to `validation_error` envelopes. -/
theorem falsy_prompt_check_precedence_witness :
    process_agentcore_payload (PyValue.pydict [("prompt", PyValue.pyint 0)]) =
      Except.error missingPromptMsg ∧
    process_agentcore_payload
        (PyValue.pydict [("prompt", PyValue.pylist [PyValue.pynone])]) =
      Except.error promptTypeMsg ∧
    ∃ env, invoke stubAdvisor (PyValue.pydict [("prompt", PyValue.pyint 0)]) =
      InvokeResult.failure env ∧ env.error_type = "validation_error" := by
  refine ⟨?_, ?_, ?_⟩
  · exact (falsy_prompt_check_precedence stubAdvisor (PyValue.pyint 0)).1 rfl
  · exact (falsy_prompt_check_precedence stubAdvisor
      (PyValue.pylist [PyValue.pynone])).2.1 rfl rfl
  · exact (falsy_prompt_check_precedence stubAdvisor (PyValue.pyint 0)).2.2 rfl

end FinAdvisor
